import Mathlib

/-!
Verification of the PodSumAI ingestion-and-summary pipeline.

The definitions below are a shallow embedding of the pipeline code:
the SQLite tables become Lean lists of rows, the prepared statements
become pure functions on a `DBState`, JavaScript truthiness and the
`Number`/`parseInt` coercions are modelled explicitly, and the
effectful steps of the summary workflow (network, filesystem) are
driven by an explicit environment of step outcomes so that every
success/failure path of the original control flow is a case of the
Lean function.
-/

deriving instance DecidableEq for Except

namespace PodSum

/-! ## JavaScript value helpers

`Option String` models a JS value that is either `undefined`/`null`
(`none`) or a string.  A string value is truthy iff it is non-empty. -/

/-- Truthiness of a nullable JS string: `none` and `some ""` are falsy. -/
def jsTruthyS : Option String → Bool
  | none => false
  | some s => if s = "" then false else true

/-- The JS expression `a || d` where `a` is a nullable string and `d` a plain string:
returns the string in `a` when truthy, otherwise `d`. -/
def jsOrD (a : Option String) (d : String) : String :=
  match a with
  | none => d
  | some s => if s = "" then d else s

/-- The JS expression `a || b` on nullable strings: `a` when truthy, otherwise `b`. -/
def jsOrO (a b : Option String) : Option String :=
  match a with
  | none => b
  | some s => if s = "" then b else some s

/-- ASCII digit test. -/
def isDigitChar (c : Char) : Bool :=
  '0' ≤ c && c ≤ '9'

/-- Decimal value of a digit list (most significant first). -/
def digitsToNat (l : List Char) : Nat :=
  l.foldl (fun n c => 10 * n + (c.toNat - '0'.toNat)) 0

/-- Model of the JS `Number(s)` coercion, restricted to the values it is
applied to in the RSS worker: trimmed strings that are either decimal
integers (with optional sign) or non-numeric text.  `none` models `NaN`.
(`Number("")` is `0` in JS.) -/
def jsNumber (s : String) : Option Int :=
  match s.data with
  | [] => some 0
  | '-' :: rest =>
    if rest ≠ [] && rest.all isDigitChar then some (-(digitsToNat rest : Int)) else none
  | '+' :: rest =>
    if rest ≠ [] && rest.all isDigitChar then some (digitsToNat rest : Int) else none
  | l =>
    if l.all isDigitChar then some (digitsToNat l : Int) else none

/-- Model of JS `parseInt(s, 10)`: skip leading whitespace, optional
sign, then the longest digit run; `NaN` (`none`) when no digit follows. -/
def jsParseInt (s : String) : Option Int :=
  match s.data.dropWhile Char.isWhitespace with
  | '-' :: rest =>
    let ds := rest.takeWhile isDigitChar
    if ds = [] then none else some (-(digitsToNat ds : Int))
  | '+' :: rest =>
    let ds := rest.takeWhile isDigitChar
    if ds = [] then none else some (digitsToNat ds : Int)
  | l =>
    let ds := l.takeWhile isDigitChar
    if ds = [] then none else some (digitsToNat ds : Int)

/-- JS addition with `NaN` (`none`) propagation. -/
def jsAdd : Option Int → Option Int → Option Int
  | some x, some y => some (x + y)
  | _, _ => none

/-- JS multiplication by a constant with `NaN` propagation. -/
def jsMul (a : Option Int) (k : Int) : Option Int :=
  match a with
  | some x => some (x * k)
  | none => none

/-- JS `x || 0`: `NaN` (and `0` itself) collapse to `0`. -/
def jsOrZero : Option Int → Option Int
  | none => some 0
  | some n => some n

/-- Split a character list on a separator (the semantics of JS
`String.prototype.split` with a single-character separator). -/
def splitOnChar (sep : Char) : List Char → List (List Char)
  | [] => [[]]
  | c :: rest =>
    let r := splitOnChar sep rest
    if c = sep then [] :: r
    else
      match r with
      | [] => [[c]]
      | h :: t => (c :: h) :: t

/-- The JS call `s.split(":")` as a list of strings. -/
def splitColon (s : String) : List String :=
  (splitOnChar ':' s.data).map fun l => ⟨l⟩

/-- The JS call `s.includes(":")`. -/
def containsColon (s : String) : Bool :=
  s.data.any fun c => c = ':'

/-! ## RSS worker: duration parsing

Embeds the `itunes:duration` handling of
`src/main/workers/rss-parser.worker.ts` (lines 116-132).  The input is
the raw duration field (`none` = missing or falsy), the output is the
JS number stored in the episode (`none` = `NaN`). -/

/-- Duration parsing from the RSS worker: colon-delimited `H:M:S` or
`M:S` via `Number` on each segment, otherwise `parseInt(s, 10) || 0`;
a missing field leaves the initial `0`. -/
def parseDuration : Option String → Option Int
  | none => some 0
  | some s =>
    if s = "" then some 0
    else if containsColon s then
      let parts := (splitColon s).map jsNumber
      if parts.length = 3 then
        jsAdd (jsAdd (jsMul (parts.getD 0 none) 3600) (jsMul (parts.getD 1 none) 60))
          (parts.getD 2 none)
      else if parts.length = 2 then
        jsAdd (jsMul (parts.getD 0 none) 60) (parts.getD 1 none)
      else jsOrZero (jsParseInt s)
    else jsOrZero (jsParseInt s)

/-! ## AudioService: path sanitization

Embeds the segment sanitization of `AudioService.downloadToPersistent`
(`title.replace(/[^a-zA-Z0-9\s\-_]/g, "_")`). -/

/-- The JS `\s` whitespace class (the code points matched by `\s` in a
JS regular expression). -/
def isJsWhitespace (c : Char) : Bool :=
  c = ' ' || c = '\t' || c = '\n' || c = '\r'
  || c.toNat = 0x0B || c.toNat = 0x0C
  || c.toNat = 0xA0 || c.toNat = 0x1680
  || (0x2000 ≤ c.toNat && c.toNat ≤ 0x200A)
  || c.toNat = 0x2028 || c.toNat = 0x2029 || c.toNat = 0x202F
  || c.toNat = 0x205F || c.toNat = 0x3000 || c.toNat = 0xFEFF

/-- The allow-list of the sanitization character class
`[a-zA-Z0-9\s\-_]`. -/
def isAllowedChar (c : Char) : Bool :=
  ('a' ≤ c && c ≤ 'z') || ('A' ≤ c && c ≤ 'Z') || ('0' ≤ c && c ≤ '9')
  || isJsWhitespace c || c = '-' || c = '_'

/-- The call `title.replace(/[^a-zA-Z0-9\s\-_]/g, "_")`: every character outside
the allow-list is replaced by an underscore. -/
def sanitizeSegment (s : String) : String :=
  ⟨s.data.map fun c => if isAllowedChar c then c else '_'⟩

/-- Modelled from the spec: the wording of the spec says sanitization
"strips" (removes) all characters outside the allow-list; this is the
removal semantics, to be compared with `sanitizeSegment` from the code. -/
def specStripSegment (s : String) : String :=
  ⟨s.data.filter isAllowedChar⟩

/-- The persistent download destination built by `downloadToPersistent`:
`<media-root>/<sanitized podcast>/<sanitized episode>.mp3`, where the
media root is `path.join(os.homedir(), "Music", "Podcasts")`. -/
def persistentPath (mediaRoot podcastTitle episodeTitle : String) : String :=
  mediaRoot ++ "/" ++ sanitizeSegment podcastTitle ++ "/" ++ sanitizeSegment episodeTitle ++ ".mp3"

/-- Characters that enable path traversal or are reserved in
Windows/POSIX file names. -/
def isReservedPathChar (c : Char) : Bool :=
  c = '/' || c = '\\' || c = '.' || c = ':' || c = '?' || c = '*'
  || c = '"' || c = '<' || c = '>' || c = '|'

/-! ## Data model

Rows of the three SQLite tables of `schema.sql`, with `Option` for
nullable columns.  Tables are lists of rows; `find?` models a
`SELECT ... WHERE <key> = ?` lookup (primary keys and the unique
`feed_url` are unique, so the first hit is the row). -/

/-- A row of the `podcasts` table. -/
structure Podcast where
  id : String
  title : String
  feed_url : String
  artwork_url : Option String
  custom_prompt : Option String
  last_fetched_at : Option String
deriving DecidableEq

/-- A row of the `episodes` table. -/
structure Episode where
  id : String
  podcast_id : String
  title : String
  pub_date : String
  duration : Option Int
  audio_url : String
  is_downloaded : Bool
  local_file_path : Option String
deriving DecidableEq

/-- A row of the `documents` table. -/
structure Document where
  id : String
  episode_id : String
  content : String
  created_at : String
  used_prompt : Option String
deriving DecidableEq

/-- The whole database. -/
structure DBState where
  podcasts : List Podcast
  episodes : List Episode
  documents : List Document
deriving DecidableEq

/-- Lookup `getEpisodeById`: `SELECT * FROM episodes WHERE id = ?`. -/
def getEpisodeById (db : DBState) (episodeId : String) : Option Episode :=
  db.episodes.find? fun e => e.id = episodeId

/-- Lookup `getPodcastById`: `SELECT * FROM podcasts WHERE id = ?`. -/
def getPodcastById (db : DBState) (podcastId : String) : Option Podcast :=
  db.podcasts.find? fun p => p.id = podcastId

/-- Lookup `getPodcastByFeedUrl`: `SELECT * FROM podcasts WHERE feed_url = ?`. -/
def getPodcastByFeedUrl (db : DBState) (url : String) : Option Podcast :=
  db.podcasts.find? fun p => p.feed_url = url

/-- Arguments of one `upsertEpisode.run` call. -/
structure EpArgs where
  guid : String
  podcast_id : String
  title : String
  pub_date : String
  duration : Option Int
  audio_url : String
deriving DecidableEq

/-- The `upsertEpisode` prepared statement:
`INSERT INTO episodes (id, podcast_id, title, pub_date, duration, audio_url)
 VALUES (...) ON CONFLICT(id) DO UPDATE SET title = excluded.title,
 duration = excluded.duration, audio_url = excluded.audio_url`.
On conflict only title/duration/audio_url change; an insert takes the
column defaults `is_downloaded = 0`, `local_file_path = NULL`. -/
def upsertEpisode (db : DBState) (a : EpArgs) : DBState :=
  if db.episodes.any (fun e => e.id = a.guid) then
    { db with episodes := db.episodes.map fun e =>
        if e.id = a.guid then
          { e with title := a.title, duration := a.duration, audio_url := a.audio_url }
        else e }
  else
    { db with episodes :=
        ⟨a.guid, a.podcast_id, a.title, a.pub_date, a.duration, a.audio_url, false, none⟩
          :: db.episodes }

/-- The `upsertPodcast` prepared statement:
`INSERT INTO podcasts (id, title, feed_url, artwork_url, last_fetched_at, custom_prompt)
 VALUES (...) ON CONFLICT(feed_url) DO UPDATE SET title = excluded.title,
 artwork_url = excluded.artwork_url, last_fetched_at = excluded.last_fetched_at`. -/
def upsertPodcast (db : DBState) (id title feed_url : String) (artwork_url : Option String)
    (last_fetched_at : String) (custom_prompt : Option String) : DBState :=
  if db.podcasts.any (fun p => p.feed_url = feed_url) then
    { db with podcasts := db.podcasts.map fun p =>
        if p.feed_url = feed_url then
          { p with title := title, artwork_url := artwork_url,
                   last_fetched_at := some last_fetched_at }
        else p }
  else
    { db with podcasts :=
        ⟨id, title, feed_url, artwork_url, custom_prompt, some last_fetched_at⟩
          :: db.podcasts }

/-- Statement `updateEpisodeDownloadStatus`:
`UPDATE episodes SET is_downloaded = ?, local_file_path = ? WHERE id = ?`. -/
def updateEpisodeDownloadStatus (db : DBState) (flag : Bool) (p : Option String)
    (episodeId : String) : DBState :=
  { db with episodes := db.episodes.map fun e =>
      if e.id = episodeId then { e with is_downloaded := flag, local_file_path := p } else e }

/-- Statement `deleteDocumentsByEpisode`: `DELETE FROM documents WHERE episode_id = ?`. -/
def deleteDocumentsByEpisode (db : DBState) (episodeId : String) : DBState :=
  { db with documents := db.documents.filter fun d => d.episode_id ≠ episodeId }

/-- Statement `insertDocument`: `INSERT INTO documents VALUES (...)`. -/
def insertDocument (db : DBState) (d : Document) : DBState :=
  { db with documents := d :: db.documents }

/-- Primitive `DatabaseManager.transaction`: runs the unit of work; if it throws,
all its writes are rolled back (better-sqlite3 semantics), otherwise the
new state is committed. -/
def transaction {α : Type} (db : DBState)
    (fn : DBState → Except String (DBState × α)) : Except String α × DBState :=
  match fn db with
  | .ok (db2, a) => (.ok a, db2)
  | .error e => (.error e, db)

/-! ## RSS worker: item filtering and identity

Embeds the item handling of `rss-parser.worker.ts` (lines 76-99): the
filter keeps items with a title and an audio reference, `itemAudioUrl`
is the `enclosure || media:content || link || ""` chain, and `itemGuid`
is the `guid?.["#text"] || guid || audioUrl || link || composite`
chain. -/

/-- One `<item>` of the parsed feed, restricted to the fields the
worker reads.  `guidText` is `item.guid?.["#text"]` (the object form),
`guidStr` is `item.guid` when the parser produced a plain string. -/
structure FeedItem where
  title : Option String
  enclosureUrl : Option String
  mediaContentUrl : Option String
  link : Option String
  guidText : Option String
  guidStr : Option String
deriving DecidableEq

/-- The filter of the worker: an item is kept iff it has a truthy audio
reference (`enclosure?.url || media:content?.url || link`) and a truthy
title. -/
def keepItem (it : FeedItem) : Bool :=
  (jsTruthyS it.enclosureUrl || jsTruthyS it.mediaContentUrl || jsTruthyS it.link)
    && jsTruthyS it.title

/-- The chain `item.enclosure?.url || item["media:content"]?.url || item.link || ""`. -/
def itemAudioUrl (it : FeedItem) : String :=
  jsOrD it.enclosureUrl (jsOrD it.mediaContentUrl (jsOrD it.link ""))

/-- The JS string interpolation of `item.title` in the composite id
(`undefined` interpolates as the text `"undefined"`). -/
def itemTitleText (it : FeedItem) : String :=
  match it.title with
  | some t => t
  | none => "undefined"

/-- The episode identifier:
`item.guid?.["#text"] || item.guid || audioUrl || item.link ||
 podcast.title + "-" + item.title`. -/
def itemGuid (it : FeedItem) (podcastTitle : String) : String :=
  let audioUrl := itemAudioUrl it
  jsOrD it.guidText
    (jsOrD it.guidStr
      (if audioUrl = "" then jsOrD it.link (podcastTitle ++ "-" ++ itemTitleText it)
       else audioUrl))

/-! ## PodcastService: feed synchronization

Embeds `PodcastService.syncPodcast`: the worker fetch happens first
(its outcome is the `fetchResult` input); on success the podcast and
episode upserts run inside `db.transaction`.  Each episode write goes
through `epRun`, which models `upsertEpisode.run` and, like any SQLite
statement, may fail; `upsertEpisodeRun` is the non-failing run. -/

/-- The normalized feed sent back by the worker. -/
structure RSSPodcast where
  title : String
  feed_url : String
  artwork_url : Option String
deriving DecidableEq

/-- A parsed episode as posted by the worker. -/
structure RSSEpisode where
  guid : String
  title : String
  pub_date : String
  duration : Option Int
  audio_url : String
deriving DecidableEq

/-- The success payload of the worker. -/
structure RSSFeed where
  podcast : RSSPodcast
  episodes : List RSSEpisode
deriving DecidableEq

/-- Result of one sync: the podcast id and the fetched episode count. -/
structure SyncResult where
  podcastId : String
  newCount : Nat
deriving DecidableEq

/-- A run of the `upsertEpisode` statement that may throw (constraint
violation, I/O failure). -/
abbrev EpisodeRun := DBState → EpArgs → Except String DBState

/-- The non-failing run of `upsertEpisode`. -/
def upsertEpisodeRun : EpisodeRun :=
  fun db a => .ok (upsertEpisode db a)

/-- The loop `feed.episodes.forEach((ep) => upsertEpisode.run(...))`:
stops at the first statement error, which aborts the transaction. -/
def runEpisodeUpserts (epRun : EpisodeRun) (db : DBState) : List EpArgs → Except String DBState
  | [] => .ok db
  | a :: rest =>
    match epRun db a with
    | .error e => .error e
    | .ok db2 => runEpisodeUpserts epRun db2 rest

/-- The chain `artworkUrl || existing?.artwork_url || feed.podcast.artwork_url || null`. -/
def computeArtwork (override existing feedArt : Option String) : Option String :=
  jsOrO override (jsOrO existing (jsOrO feedArt none))

/-- The argument list of the episode upserts of one sync. -/
def syncEpArgs (feed : RSSFeed) (podcastId : String) : List EpArgs :=
  feed.episodes.map fun ep => ⟨ep.guid, podcastId, ep.title, ep.pub_date, ep.duration, ep.audio_url⟩

/-- The transactional body of `syncPodcast`: resolve the podcast id by
feed URL, compute the artwork priority chain, upsert the podcast, then
upsert every episode. -/
def syncBody (epRun : EpisodeRun) (feed : RSSFeed) (url : String) (artworkUrl : Option String)
    (freshId now : String) (db : DBState) : Except String (DBState × SyncResult) :=
  let existing := getPodcastByFeedUrl db url
  let podcastId := jsOrD (existing.map fun p => p.id) freshId
  let finalArtworkUrl :=
    computeArtwork artworkUrl (existing.bind fun p => p.artwork_url) feed.podcast.artwork_url
  let db1 := upsertPodcast db podcastId feed.podcast.title url finalArtworkUrl now
    (jsOrO (existing.bind fun p => p.custom_prompt) none)
  match runEpisodeUpserts epRun db1 (syncEpArgs feed podcastId) with
  | .error e => .error e
  | .ok db2 => .ok (db2, ⟨podcastId, feed.episodes.length⟩)

/-- Method `PodcastService.syncPodcast`: the fetch runs before the transaction
opens, so a fetch error propagates with no write; on success the body
runs atomically. -/
def syncPodcast (epRun : EpisodeRun) (fetchResult : Except String RSSFeed) (url : String)
    (artworkUrl : Option String) (freshId now : String) (db : DBState) :
    Except String SyncResult × DBState :=
  match fetchResult with
  | .error e => (.error e, db)
  | .ok feed => transaction db (syncBody epRun feed url artworkUrl freshId now)

/-! ## AudioService: audio provisioning

Embeds `AudioService.provisionAudio`.  Filesystem presence is the
`fileExists` oracle, the outcome of `downloadStream` is the
`downloadResult` input, and the third component of the result records
the destination of every download attempt (so "performs no download"
is `= []`). -/

/-- The `{ path, isEphemeral }` result of provisioning. -/
structure AudioProvisionResult where
  path : String
  isEphemeral : Bool
deriving DecidableEq

/-- Method `AudioService.provisionAudio`: vault-first lookup with self-healing
of a stale download mark, then ephemeral download into
`<tempDir>/<episodeId>.mp3`. -/
def provisionAudio (fileExists : String → Bool) (downloadResult : Except String Unit)
    (tempDir : String) (db : DBState) (episodeId : String) :
    Except String AudioProvisionResult × DBState × List String :=
  match getEpisodeById db episodeId with
  | none => (.error ("Episode " ++ episodeId ++ " not found"), db, [])
  | some episode =>
    let vaultHit := episode.is_downloaded && jsTruthyS episode.local_file_path
    let vaultPath := jsOrD episode.local_file_path ""
    if vaultHit && fileExists vaultPath then
      (.ok ⟨vaultPath, false⟩, db, [])
    else
      let db1 :=
        if vaultHit then updateEpisodeDownloadStatus db false none episodeId else db
      let tempPath := tempDir ++ "/" ++ episodeId ++ ".mp3"
      match downloadResult with
      | .error e => (.error e, db1, [tempPath])
      | .ok _ => (.ok ⟨tempPath, true⟩, db1, [tempPath])

/-! ## GeminiService: generation state and summary workflow

Embeds the single-flight state of `GeminiService`
(`isGenerating` / `generatingEpisodeId`), the guard pair
`startGeneration` / `completeGeneration`, and the full
`generateSummary` workflow with its `finally` cleanup.  The outcome of
every awaited step is an input (`GsEnv`), and observable actions are
recorded as `Effect`s. -/

/-- The process-wide generation status. -/
structure GenState where
  isGenerating : Bool
  generatingEpisodeId : Option String
deriving DecidableEq

/-- The constructor-time state: `isGenerating = false`,
`generatingEpisodeId = null`. -/
def initialGenState : GenState := ⟨false, none⟩

/-- Method `GeminiService.startGeneration`: succeeds (and records the episode)
only when not already generating. -/
def startGeneration (s : GenState) (episodeId : String) : Bool × GenState :=
  if s.isGenerating then (false, s)
  else (true, ⟨true, some episodeId⟩)

/-- Method `GeminiService.completeGeneration`: unconditionally back to idle. -/
def completeGeneration (_s : GenState) : GenState := ⟨false, none⟩

/-- Method `GeminiService.getGeneratingStatus`. -/
def getGeneratingStatus (s : GenState) : Bool × Option String :=
  (s.isGenerating, s.generatingEpisodeId)

/-- Observable actions of the summary workflow. -/
inductive Effect
  | provision
  | upload
  | dbWrite
  | deleteRemote (name : String)
  | deleteLocal (p : String)
  | cleanupLog (msg : String)
deriving DecidableEq

/-- The file record returned by `fileManager.uploadFile` (`file.uri`
and `file.name`; the name may be absent). -/
structure UploadFile where
  uri : String
  name : Option String
deriving DecidableEq

/-- Outcomes of the awaited steps of `generateSummary`, plus the
filesystem state and cleanup outcomes seen by the `finally` block. -/
structure GsEnv where
  provision : Except String AudioProvisionResult
  statSizeBytes : Except String Nat
  upload : Except String UploadFile
  pollActive : Except String Unit
  genContent : Except String String
  localFileExists : Bool
  deleteRemoteOk : Bool
  deleteLocalOk : Bool

/-- Method `GeminiService.getPrompt`: the custom prompt of the podcast when truthy,
otherwise the built-in default; throws when the episode is unknown. -/
def getPrompt (db : DBState) (episodeId : String) (defaultPrompt : String) :
    Except String String :=
  match getEpisodeById db episodeId with
  | none => .error ("Episode " ++ episodeId ++ " not found")
  | some episode =>
    match getPodcastById db episode.podcast_id with
    | some podcast =>
      if jsTruthyS podcast.custom_prompt then .ok (jsOrD podcast.custom_prompt defaultPrompt)
      else .ok defaultPrompt
    | none => .ok defaultPrompt

/-- What the `try` block of `generateSummary` left behind when control
reaches `finally`: the primary outcome, the captured `localAudio` and
`geminiFileName` locals, the database, and the effects so far. -/
structure BodyOut where
  result : Except String String
  localAudio : Option AudioProvisionResult
  geminiFileName : Option String
  db : DBState
  effects : List Effect
deriving DecidableEq

/-- The Gemini upload size ceiling: `fileSizeMB > 2000` with
`fileSizeMB = size / (1024*1024)` is exactly `size > 2000 * 1024 * 1024`
bytes (division by a power of two is exact in binary floating point at
these magnitudes). -/
def maxUploadBytes : Nat := 2000 * 1024 * 1024

/-- The `try` block of `generateSummary`, steps 1-6: provision,
size-check, upload, poll, prompt, generate, transactional persist. -/
def generateSummaryBody (env : GsEnv) (db : DBState)
    (episodeId newDocId now defaultPrompt : String) : BodyOut :=
  match env.provision with
  | .error e => ⟨.error e, none, none, db, [.provision]⟩
  | .ok localAudio =>
    match env.statSizeBytes with
    | .error e => ⟨.error e, some localAudio, none, db, [.provision]⟩
    | .ok size =>
      if maxUploadBytes < size then
        ⟨.error "File too large (max 2000MB)", some localAudio, none, db, [.provision]⟩
      else
        match env.upload with
        | .error e => ⟨.error e, some localAudio, none, db, [.provision, .upload]⟩
        | .ok file =>
          let geminiFileName := file.name
          if jsTruthyS geminiFileName = false then
            ⟨.error "Upload failed: no file name returned", some localAudio, geminiFileName,
              db, [.provision, .upload]⟩
          else
            match env.pollActive with
            | .error e =>
              ⟨.error e, some localAudio, geminiFileName, db, [.provision, .upload]⟩
            | .ok _ =>
              match getPrompt db episodeId defaultPrompt with
              | .error e =>
                ⟨.error e, some localAudio, geminiFileName, db, [.provision, .upload]⟩
              | .ok prompt =>
                match env.genContent with
                | .error e =>
                  ⟨.error e, some localAudio, geminiFileName, db, [.provision, .upload]⟩
                | .ok markdown =>
                  let db2 := insertDocument (deleteDocumentsByEpisode db episodeId)
                    ⟨newDocId, episodeId, markdown, now, some prompt⟩
                  ⟨.ok markdown, some localAudio, geminiFileName, db2,
                    [.provision, .upload, .dbWrite]⟩

/-- The `finally` block: reset the generation status, then best-effort
deletion of the remote file (when one was named) and of the ephemeral
local file (when present on disk).  A failed deletion is only logged. -/
def runFinally (env : GsEnv) (s : GenState) (bo : BodyOut) : GenState × List Effect :=
  let s2 := completeGeneration s
  let remoteEffs : List Effect :=
    match bo.geminiFileName with
    | none => []
    | some n =>
      if n = "" then []
      else if env.deleteRemoteOk then [.deleteRemote n]
      else [.deleteRemote n, .cleanupLog "Failed to delete Gemini file"]
  let localEffs : List Effect :=
    match bo.localAudio with
    | none => []
    | some la =>
      if la.isEphemeral && env.localFileExists then
        if env.deleteLocalOk then [.deleteLocal la.path]
        else [.deleteLocal la.path, .cleanupLog "Failed to delete temp file"]
      else []
  (s2, remoteEffs ++ localEffs)

/-- The observable outcome of one `generateSummary` call. -/
structure GsOut where
  result : Except String String
  state : GenState
  db : DBState
  effects : List Effect
deriving DecidableEq

/-- Method `GeminiService.generateSummary`: acquire the single-flight guard or
throw `ALREADY_GENERATING` before the `try` (so the `finally` does not
run and nothing else happens); otherwise run the body with the
`finally` on every exit path. -/
def generateSummary (env : GsEnv) (s : GenState) (db : DBState)
    (episodeId newDocId now defaultPrompt : String) : GsOut :=
  match startGeneration s episodeId with
  | (false, s1) => ⟨.error "ALREADY_GENERATING", s1, db, []⟩
  | (true, s1) =>
    let bo := generateSummaryBody env db episodeId newDocId now defaultPrompt
    let fin := runFinally env s1 bo
    ⟨bo.result, fin.1, bo.db, bo.effects ++ fin.2⟩

/-- Single calls of the guard pair, for reasoning about arbitrary call
sequences on the shared status. -/
inductive GenOp
  | start (episodeId : String)
  | complete
deriving DecidableEq

/-- Apply one guard call to the status. -/
def applyGenOp (s : GenState) : GenOp → GenState
  | .start episodeId => (startGeneration s episodeId).2
  | .complete => completeGeneration s

/-- Apply a call sequence from a given status. -/
def applyGenOps (s : GenState) (ops : List GenOp) : GenState :=
  ops.foldl applyGenOp s

/-! ## Concrete sample inputs (used by witnesses) -/

/-- An episode already in the vault: downloaded with a recorded path. -/
def sampleEp : Episode :=
  ⟨"e1", "p1", "Old title", "2020-01-01", some 10, "http://old.mp3", true, some "/vault/e1.mp3"⟩

/-- A database holding `sampleEp`. -/
def sampleDb : DBState := ⟨[], [sampleEp], []⟩

/-- The empty database. -/
def emptyDb : DBState := ⟨[], [], []⟩

/-- A feed with two episodes. -/
def sampleFeed : RSSFeed :=
  ⟨⟨"Pod", "http://feed", some "http://art"⟩,
   [⟨"e1", "Ep1", "2020-01-01", some 1, "http://a1"⟩,
    ⟨"e2", "Ep2", "2020-01-02", some 2, "http://a2"⟩]⟩

/-- An `upsertEpisode.run` that hits a persistence error on episode
`e2` (e.g. a constraint violation). -/
def failRun : EpisodeRun :=
  fun db a => if a.guid = "e2" then .error "constraint" else .ok (upsertEpisode db a)

/-- A workflow environment whose provisioning step fails. -/
def sampleEnvFail : GsEnv :=
  ⟨.error "network", .ok 0, .error "x", .ok (), .error "x", false, true, true⟩

/-- A workflow environment where provisioning (ephemeral), stat and
upload succeed. -/
def sampleEnvOk : GsEnv :=
  ⟨.ok ⟨"/tmp/myapp-cache/e1.mp3", true⟩, .ok 1000, .ok ⟨"uri://f", some "files/abc"⟩,
   .ok (), .ok "md", true, true, true⟩

/-- A feed item with a guid and an enclosure. -/
def sampleItem : FeedItem :=
  ⟨some "T", some "http://enc", none, none, some "GUID-1", none⟩

/-! ## Helper lemmas -/

theorem find?_map_update {α : Type} (p : α → Bool) (f : α → α) (l : List α)
    (hf : ∀ x, p x = true → p (f x) = true) (a : α) (h : l.find? p = some a) :
    (l.map fun x => if p x then f x else x).find? p = some (f a) := by
  induction l with
  | nil => simp [List.find?] at h
  | cons y ys ih =>
    cases hy : p y with
    | true =>
      rw [List.find?_cons, hy] at h
      injection h with h
      subst h
      simp only [List.map_cons, if_pos hy]
      rw [List.find?_cons, hf y hy]
    | false =>
      rw [List.find?_cons, hy] at h
      have hyy : (if p y = true then f y else y) = y := by simp [hy]
      simp only [List.map_cons, hyy]
      rw [List.find?_cons, hy]
      exact ih h

theorem any_eq_false_of_find?_none {α : Type} {p : α → Bool} {l : List α}
    (h : l.find? p = none) : l.any p = false := by
  rw [List.find?_eq_none] at h
  by_contra hc
  rw [Bool.not_eq_false, List.any_eq_true] at hc
  obtain ⟨x, hx, hpx⟩ := hc
  exact h x hx hpx

theorem any_eq_true_of_find?_some {α : Type} {p : α → Bool} {l : List α} {a : α}
    (h : l.find? p = some a) : l.any p = true :=
  List.any_eq_true.mpr ⟨a, List.mem_of_find?_eq_some h, List.find?_some h⟩

theorem upsertEpisode_podcasts (db : DBState) (a : EpArgs) :
    (upsertEpisode db a).podcasts = db.podcasts := by
  by_cases h : db.episodes.any (fun e => e.id = a.guid) = true <;> simp [upsertEpisode, h]

theorem foldl_upsert_podcasts (l : List EpArgs) (db : DBState) :
    (l.foldl upsertEpisode db).podcasts = db.podcasts := by
  induction l generalizing db with
  | nil => rfl
  | cons a rest ih => rw [List.foldl_cons, ih, upsertEpisode_podcasts]

theorem runEpisodeUpserts_pure (l : List EpArgs) (db : DBState) :
    runEpisodeUpserts upsertEpisodeRun db l = .ok (l.foldl upsertEpisode db) := by
  induction l generalizing db with
  | nil => rfl
  | cons a rest ih =>
    show runEpisodeUpserts upsertEpisodeRun (upsertEpisode db a) rest = _
    rw [List.foldl_cons]
    exact ih (upsertEpisode db a)

theorem upsertEpisode_keeps_local (db : DBState) (a : EpArgs) (e : Episode)
    (he : e ∈ db.episodes) :
    ∃ e2, e2 ∈ (upsertEpisode db a).episodes ∧ e2.id = e.id ∧
      e2.is_downloaded = e.is_downloaded ∧ e2.local_file_path = e.local_file_path := by
  by_cases h : db.episodes.any (fun x => x.id = a.guid) = true
  · refine ⟨if e.id = a.guid then
      { e with title := a.title, duration := a.duration, audio_url := a.audio_url } else e,
      ?_, ?_⟩
    · simp only [upsertEpisode, h, if_pos]
      exact List.mem_map.mpr ⟨e, he, by by_cases hid : e.id = a.guid <;> simp [hid]⟩
    · by_cases hid : e.id = a.guid <;> simp [hid]
  · refine ⟨e, ?_, rfl, rfl, rfl⟩
    simp only [upsertEpisode, h, if_neg]
    simp [List.mem_cons]
    right
    exact he

theorem foldl_upsert_keeps_local (l : List EpArgs) (db : DBState) (e : Episode)
    (he : e ∈ db.episodes) :
    ∃ e2, e2 ∈ (l.foldl upsertEpisode db).episodes ∧ e2.id = e.id ∧
      e2.is_downloaded = e.is_downloaded ∧ e2.local_file_path = e.local_file_path := by
  induction l generalizing db e with
  | nil => exact ⟨e, he, rfl, rfl, rfl⟩
  | cons a rest ih =>
    obtain ⟨e2, he2, hid, hdl, hp⟩ := upsertEpisode_keeps_local db a e he
    obtain ⟨e3, he3, hid3, hdl3, hp3⟩ := ih (upsertEpisode db a) e2 he2
    exact ⟨e3, by rw [List.foldl_cons]; exact he3, hid3.trans hid, hdl3.trans hdl, hp3.trans hp⟩

theorem allowedChar_not_reserved (c : Char) (h : isAllowedChar c = true) :
    isReservedPathChar c = false := by
  cases hr : isReservedPathChar c
  · rfl
  · exfalso
    simp only [isReservedPathChar, Bool.or_eq_true, decide_eq_true_eq] at hr
    rcases hr with ((((((((h1 | h1) | h1) | h1) | h1) | h1) | h1) | h1) | h1) | h1 <;>
      subst h1 <;> exact absurd h (by decide)

theorem sanitizeSegment_chars (s : String) (c : Char)
    (hc : c ∈ (sanitizeSegment s).data) : isAllowedChar c = true := by
  have hc2 : c ∈ s.data.map (fun x => if isAllowedChar x then x else '_') := hc
  obtain ⟨a, _, ha⟩ := List.mem_map.mp hc2
  by_cases h : isAllowedChar a = true
  · rw [if_pos h] at ha
    rwa [ha] at h
  · rw [if_neg h] at ha
    rw [ha.symm]
    decide

/-! ## Claim theorems -/

/-- C7, counterexample: the sanitization of `downloadToPersistent` does
not strip characters outside the allow-list — it replaces each of them
with an underscore.  On the example title of the spec `"A/B: Test?"` the
code produces `"A_B_ Test_"`, while removal semantics would produce
`"AB Test"`. -/
theorem sanitize_strip_counterexample :
    sanitizeSegment "A/B: Test?" = "A_B_ Test_" ∧
    specStripSegment "A/B: Test?" = "AB Test" ∧
    sanitizeSegment "A/B: Test?" ≠ specStripSegment "A/B: Test?" := by
  refine ⟨by decide, by decide, by decide⟩

/-- C7, amended: sanitization replaces (rather than strips) every
character outside the allow-list (alphanumeric, whitespace, hyphen,
underscore) with an underscore in both path segments, so the resulting
path `<media-root>/<sanitized podcast>/<sanitized episode>.mp3` has
segments made only of allow-listed characters, contains no
path-traversal or reserved characters, and never escapes the media
root. -/
theorem sanitize_amended (mediaRoot podcastTitle episodeTitle : String) :
    persistentPath mediaRoot podcastTitle episodeTitle =
      mediaRoot ++ "/" ++ sanitizeSegment podcastTitle ++ "/"
        ++ sanitizeSegment episodeTitle ++ ".mp3" ∧
    (∀ c, c ∈ (sanitizeSegment podcastTitle).data →
      isAllowedChar c = true ∧ isReservedPathChar c = false) ∧
    (∀ c, c ∈ (sanitizeSegment episodeTitle).data →
      isAllowedChar c = true ∧ isReservedPathChar c = false) := by
  refine ⟨rfl, ?_, ?_⟩ <;> intro c hc <;>
    exact ⟨sanitizeSegment_chars _ c hc,
      allowedChar_not_reserved c (sanitizeSegment_chars _ c hc)⟩

/-- C7, witness: the amended theorem at the example titles of the spec. -/
theorem sanitize_amended_witness :
    persistentPath "/root/Music/Podcasts" "A/B: Test?" "Ep #1" =
      "/root/Music/Podcasts" ++ "/" ++ sanitizeSegment "A/B: Test?" ++ "/"
        ++ sanitizeSegment "Ep #1" ++ ".mp3" ∧
    (isAllowedChar 'A' = true ∧ isReservedPathChar 'A' = false) :=
  ⟨(sanitize_amended "/root/Music/Podcasts" "A/B: Test?" "Ep #1").1,
   (sanitize_amended "/root/Music/Podcasts" "A/B: Test?" "Ep #1").2.1 'A' (by decide)⟩

/-- C6, counterexample: `"a:b"` is a colon-delimited duration whose
segments are not numbers; the worker computes `NaN * 60 + NaN = NaN`
for it, not 0. -/
theorem duration_claim_counterexample :
    parseDuration (some "a:b") ≠ some 0 ∧ parseDuration (some "a:b") = none := by
  refine ⟨by decide, by decide⟩

/-- C6, amended: duration parsing maps `"1:02:03"` to 3723, `"45:10"`
to 2710, `"90"` to 90; a missing field and every colon-free unparsable
value yield 0; but a colon-delimited value with exactly two or three
segments of which some segment is not a number yields `NaN` (no value),
not 0. -/
theorem duration_parsing_amended :
    parseDuration (some "1:02:03") = some 3723 ∧
    parseDuration (some "45:10") = some 2710 ∧
    parseDuration (some "90") = some 90 ∧
    parseDuration none = some 0 ∧
    (∀ s, containsColon s = false → jsParseInt s = none → parseDuration (some s) = some 0) ∧
    parseDuration (some "a:b") = none := by
  refine ⟨by decide, by decide, by decide, by decide, ?_, by decide⟩
  intro s h1 h2
  by_cases hs : s = ""
  · subst hs; rfl
  · simp [parseDuration, hs, h1, h2, jsOrZero]

/-- C6, witness: the colon-free unparsable branch of the amended
theorem at `"abc"`. -/
theorem duration_parsing_amended_witness : parseDuration (some "abc") = some 0 :=
  duration_parsing_amended.2.2.2.2.1 "abc" (by decide) (by decide)

theorem upsertPodcast_episodes (db : DBState) (i t u : String) (a : Option String)
    (l : String) (c : Option String) :
    (upsertPodcast db i t u a l c).episodes = db.episodes := by
  by_cases h : db.podcasts.any (fun p => p.feed_url = u) = true <;> simp [upsertPodcast, h]

/-- C1: for an existing episode id, the episode upsert updates only
title, duration and audio_url and leaves is_downloaded and
local_file_path (and pub_date, podcast_id) exactly as they were; for an
absent id it inserts all supplied fields with the download columns at
their defaults; consequently a feed sync never changes the download
flag or recorded path of any stored episode. -/
theorem upsertEpisode_preserves (db : DBState) (a : EpArgs) :
    (∀ e, getEpisodeById db a.guid = some e →
      getEpisodeById (upsertEpisode db a) a.guid =
        some { e with title := a.title, duration := a.duration, audio_url := a.audio_url }) ∧
    (getEpisodeById db a.guid = none →
      upsertEpisode db a = { db with episodes :=
        ⟨a.guid, a.podcast_id, a.title, a.pub_date, a.duration, a.audio_url, false, none⟩
          :: db.episodes }) ∧
    (∀ feed url artOver freshId now e, e ∈ db.episodes →
      ∃ e2, e2 ∈ ((syncPodcast upsertEpisodeRun (.ok feed) url artOver freshId now db).2).episodes ∧
        e2.id = e.id ∧ e2.is_downloaded = e.is_downloaded ∧
        e2.local_file_path = e.local_file_path) := by
  refine ⟨?_, ?_, ?_⟩
  · intro e he
    have he2 : List.find? (fun x => decide (x.id = a.guid)) db.episodes = some e := he
    have hany : db.episodes.any (fun x => x.id = a.guid) = true :=
      any_eq_true_of_find?_some he2
    have hmap := find?_map_update (fun x => decide (x.id = a.guid))
      (fun x => { x with title := a.title, duration := a.duration, audio_url := a.audio_url })
      db.episodes (fun x hx => hx) e he2
    simp only [getEpisodeById, upsertEpisode, hany, if_pos]
    simpa using hmap
  · intro he
    have hany : db.episodes.any (fun x => x.id = a.guid) = false :=
      any_eq_false_of_find?_none he
    simp [upsertEpisode, hany]
  · intro feed url artOver freshId now e he
    have hrun := runEpisodeUpserts_pure
      (syncEpArgs feed (jsOrD ((getPodcastByFeedUrl db url).map fun p => p.id) freshId))
      (upsertPodcast db (jsOrD ((getPodcastByFeedUrl db url).map fun p => p.id) freshId)
        feed.podcast.title url
        (computeArtwork artOver ((getPodcastByFeedUrl db url).bind fun p => p.artwork_url)
          feed.podcast.artwork_url) now
        (jsOrO ((getPodcastByFeedUrl db url).bind fun p => p.custom_prompt) none))
    simp only [syncPodcast, transaction, syncBody, hrun]
    have he1 : e ∈ (upsertPodcast db (jsOrD ((getPodcastByFeedUrl db url).map fun p => p.id) freshId)
        feed.podcast.title url
        (computeArtwork artOver ((getPodcastByFeedUrl db url).bind fun p => p.artwork_url)
          feed.podcast.artwork_url) now
        (jsOrO ((getPodcastByFeedUrl db url).bind fun p => p.custom_prompt) none)).episodes := by
      rw [upsertPodcast_episodes]; exact he
    exact foldl_upsert_keeps_local _ _ e he1


/-- C1, witness: re-syncing `sampleEp` with a new title/duration/url
keeps its download flag and vault path. -/
theorem upsertEpisode_preserves_witness :
    getEpisodeById (upsertEpisode sampleDb
        ⟨"e1", "p1", "New title", "2021-02-02", some 20, "http://new.mp3"⟩) "e1" =
      some ⟨"e1", "p1", "New title", "2020-01-01", some 20, "http://new.mp3", true,
        some "/vault/e1.mp3"⟩ :=
  (upsertEpisode_preserves sampleDb
    ⟨"e1", "p1", "New title", "2021-02-02", some 20, "http://new.mp3"⟩).1 sampleEp (by decide)

/-- C5: feed sync is all-or-nothing — a fetch failure propagates
unchanged with zero rows written, and whenever the sync returns an
error (in particular when persisting any episode of the batch fails
inside the transaction) the database is exactly the pre-sync state. -/
theorem syncPodcast_atomic (epRun : EpisodeRun) (fetchResult : Except String RSSFeed)
    (url : String) (artworkUrl : Option String) (freshId now : String) (db : DBState) :
    (∀ e, fetchResult = .error e →
      syncPodcast epRun fetchResult url artworkUrl freshId now db = (.error e, db)) ∧
    (∀ e, (syncPodcast epRun fetchResult url artworkUrl freshId now db).1 = .error e →
      (syncPodcast epRun fetchResult url artworkUrl freshId now db).2 = db) := by
  constructor
  · intro e he
    rw [he]
    rfl
  · intro e he
    cases fetchResult with
    | error f => rfl
    | ok feed =>
      simp only [syncPodcast, transaction] at he ⊢
      cases hb : syncBody epRun feed url artworkUrl freshId now db with
      | error f => rfl
      | ok pr =>
        rw [hb] at he
        simp at he

/-- C5, witness: a sync whose second episode write fails leaves the
empty database untouched. -/
theorem syncPodcast_atomic_witness :
    (syncPodcast failRun (.ok sampleFeed) "http://feed" none "pid-new" "t0" emptyDb).2 =
      emptyDb :=
  (syncPodcast_atomic failRun (.ok sampleFeed) "http://feed" none "pid-new" "t0"
    emptyDb).2 "constraint" (by decide)

/-- C4: provisionAudio is vault-first — a downloaded episode whose
recorded file exists yields exactly that path with ephemeral=false and
no download attempt; a downloaded episode whose file is missing first
self-heals (flag reset, path cleared) and then downloads to the temp
cache, returning the temp path with ephemeral=true; an unknown episode
id fails with an episode-not-found error. -/
theorem provisionAudio_vault_first (fileExists : String → Bool)
    (downloadResult : Except String Unit) (tempDir : String) (db : DBState)
    (episodeId : String) :
    (∀ e p, getEpisodeById db episodeId = some e → e.is_downloaded = true →
      e.local_file_path = some p → p ≠ "" → fileExists p = true →
      provisionAudio fileExists downloadResult tempDir db episodeId = (.ok ⟨p, false⟩, db, [])) ∧
    (∀ e p, getEpisodeById db episodeId = some e → e.is_downloaded = true →
      e.local_file_path = some p → p ≠ "" → fileExists p = false →
      downloadResult = .ok () →
      provisionAudio fileExists downloadResult tempDir db episodeId =
        (.ok ⟨tempDir ++ "/" ++ episodeId ++ ".mp3", true⟩,
         updateEpisodeDownloadStatus db false none episodeId,
         [tempDir ++ "/" ++ episodeId ++ ".mp3"])) ∧
    (getEpisodeById db episodeId = none →
      provisionAudio fileExists downloadResult tempDir db episodeId =
        (.error ("Episode " ++ episodeId ++ " not found"), db, [])) := by
  refine ⟨?_, ?_, ?_⟩
  · intro e p he hd hp hpne hex
    simp [provisionAudio, he, hd, hp, hpne, hex, jsTruthyS, jsOrD]
  · intro e p he hd hp hpne hex hdl
    simp [provisionAudio, he, hd, hp, hpne, hex, hdl, jsTruthyS, jsOrD]
  · intro he
    simp [provisionAudio, he]

/-- C4, witness: the vault hit on `sampleEp`. -/
theorem provisionAudio_vault_first_witness :
    provisionAudio (fun _ => true) (.ok ()) "/tmp/myapp-cache" sampleDb "e1" =
      (.ok ⟨"/vault/e1.mp3", false⟩, sampleDb, []) :=
  (provisionAudio_vault_first (fun _ => true) (.ok ()) "/tmp/myapp-cache" sampleDb "e1").1
    sampleEp "/vault/e1.mp3" (by decide) (by decide) (by decide) (by decide) rfl

theorem upsertPodcast_stores_artwork (db : DBState) (id title url : String)
    (art : Option String) (now : String) (cp : Option String) :
    ∃ p : Podcast,
      (upsertPodcast db id title url art now cp).podcasts.find?
        (fun q => q.feed_url = url) = some p ∧ p.artwork_url = art := by
  cases hex : db.podcasts.find? (fun q => decide (q.feed_url = url)) with
  | none =>
    have hany : db.podcasts.any (fun q => q.feed_url = url) = false :=
      any_eq_false_of_find?_none hex
    refine ⟨⟨id, title, url, art, cp, some now⟩, ?_, rfl⟩
    rw [upsertPodcast, if_neg (by simp [hany])]
    rw [List.find?_cons]
    simp
  | some ex =>
    have hany : db.podcasts.any (fun q => q.feed_url = url) = true :=
      any_eq_true_of_find?_some hex
    have hmap := find?_map_update (fun (q : Podcast) => decide (q.feed_url = url))
      (fun (q : Podcast) =>
        { q with title := title, artwork_url := art, last_fetched_at := some now })
      db.podcasts (fun x hx => hx) ex hex
    refine ⟨{ ex with title := title, artwork_url := art, last_fetched_at := some now },
      ?_, rfl⟩
    rw [upsertPodcast, if_pos hany]
    simpa using hmap

/-- C9: during sync the stored podcast artwork is the first present
value of the priority chain [explicit override > existing persisted
artwork > feed-provided artwork], and null when all three are absent
(a present value being a non-null, non-empty string). -/
theorem syncPodcast_artwork (db : DBState) (feed : RSSFeed) (url : String)
    (artOver : Option String) (freshId now : String) :
    (∀ o e f : Option String, computeArtwork o e f =
      if jsTruthyS o = true then o else if jsTruthyS e = true then e
      else if jsTruthyS f = true then f else none) ∧
    (∃ p : Podcast,
      getPodcastByFeedUrl
          (syncPodcast upsertEpisodeRun (.ok feed) url artOver freshId now db).2 url = some p ∧
      p.artwork_url = computeArtwork artOver
        ((getPodcastByFeedUrl db url).bind fun q => q.artwork_url)
        feed.podcast.artwork_url) := by
  constructor
  · intro o e f
    rcases o with _ | s <;> rcases e with _ | t <;> rcases f with _ | u <;>
      simp [computeArtwork, jsOrO, jsTruthyS]
  · have hrun := runEpisodeUpserts_pure
      (syncEpArgs feed (jsOrD ((getPodcastByFeedUrl db url).map fun p => p.id) freshId))
      (upsertPodcast db (jsOrD ((getPodcastByFeedUrl db url).map fun p => p.id) freshId)
        feed.podcast.title url
        (computeArtwork artOver ((getPodcastByFeedUrl db url).bind fun p => p.artwork_url)
          feed.podcast.artwork_url) now
        (jsOrO ((getPodcastByFeedUrl db url).bind fun p => p.custom_prompt) none))
    obtain ⟨p, hp, hart⟩ := upsertPodcast_stores_artwork db
      (jsOrD ((getPodcastByFeedUrl db url).map fun q => q.id) freshId)
      feed.podcast.title url
      (computeArtwork artOver ((getPodcastByFeedUrl db url).bind fun q => q.artwork_url)
        feed.podcast.artwork_url) now
      (jsOrO ((getPodcastByFeedUrl db url).bind fun q => q.custom_prompt) none)
    refine ⟨p, ?_, hart⟩
    simp only [syncPodcast, transaction, syncBody, hrun]
    rw [getPodcastByFeedUrl, foldl_upsert_podcasts]
    exact hp

/-- C2: the summary orchestrator is single-flight — while a generation
is in flight, any invocation fails immediately with ALREADY_GENERATING
and has no side effects (state, database and effect log unchanged);
when the guard is free, the workflow concludes with the state back at
Idle whatever the step outcomes; and the transition into
Generating(episodeId) succeeds only from Idle and records exactly that
episode id. -/
theorem generateSummary_single_flight (env : GsEnv) (s : GenState) (db : DBState)
    (episodeId newDocId now defaultPrompt : String) :
    (s.isGenerating = true →
      generateSummary env s db episodeId newDocId now defaultPrompt =
        ⟨.error "ALREADY_GENERATING", s, db, []⟩) ∧
    (s.isGenerating = false →
      (generateSummary env s db episodeId newDocId now defaultPrompt).state =
        initialGenState) ∧
    (∀ ok s2, startGeneration s episodeId = (ok, s2) → ok = true →
      s.isGenerating = false ∧ s2 = ⟨true, some episodeId⟩) := by
  refine ⟨?_, ?_, ?_⟩
  · intro hs
    simp [generateSummary, startGeneration, hs]
  · intro hs
    simp [generateSummary, startGeneration, hs, runFinally, completeGeneration,
      initialGenState]
  · intro ok s2 hstart hok
    cases hs : s.isGenerating with
    | true =>
      rw [startGeneration, if_pos hs] at hstart
      injection hstart with h1 h2
      rw [hok] at h1
      exact absurd h1.symm (by decide)
    | false =>
      rw [startGeneration, if_neg (by simp [hs])] at hstart
      injection hstart with h1 h2
      exact ⟨rfl, h2.symm⟩

/-- C2, witness: a call made while episode "busy" is generating fails
with ALREADY_GENERATING and changes nothing. -/
theorem generateSummary_single_flight_witness :
    generateSummary sampleEnvFail ⟨true, some "busy"⟩ emptyDb "e9" "d1" "t" "DP" =
      ⟨.error "ALREADY_GENERATING", ⟨true, some "busy"⟩, emptyDb, []⟩ :=
  (generateSummary_single_flight sampleEnvFail ⟨true, some "busy"⟩ emptyDb
    "e9" "d1" "t" "DP").1 rfl

/-- C3: once the guard is acquired, the cleanup phase runs on every
exit path of generateSummary — the remote file is deleted whenever one
was named by the upload, the local audio file is deleted whenever it
was provisioned ephemerally and still exists, and the outcome of the
two best-effort deletions never changes the workflow result, the final
state, or the database. -/
theorem generateSummary_cleanup (env : GsEnv) (s : GenState) (db : DBState)
    (episodeId newDocId now defaultPrompt : String) (h : s.isGenerating = false) :
    (∀ n, (generateSummaryBody env db episodeId newDocId now defaultPrompt).geminiFileName =
        some n → n ≠ "" →
      Effect.deleteRemote n ∈
        (generateSummary env s db episodeId newDocId now defaultPrompt).effects) ∧
    (∀ la, (generateSummaryBody env db episodeId newDocId now defaultPrompt).localAudio =
        some la → la.isEphemeral = true → env.localFileExists = true →
      Effect.deleteLocal la.path ∈
        (generateSummary env s db episodeId newDocId now defaultPrompt).effects) ∧
    (∀ r l,
      (generateSummary { env with deleteRemoteOk := r, deleteLocalOk := l } s db
          episodeId newDocId now defaultPrompt).result =
        (generateSummary env s db episodeId newDocId now defaultPrompt).result ∧
      (generateSummary { env with deleteRemoteOk := r, deleteLocalOk := l } s db
          episodeId newDocId now defaultPrompt).state =
        (generateSummary env s db episodeId newDocId now defaultPrompt).state ∧
      (generateSummary { env with deleteRemoteOk := r, deleteLocalOk := l } s db
          episodeId newDocId now defaultPrompt).db =
        (generateSummary env s db episodeId newDocId now defaultPrompt).db) := by
  have hred : ∀ env2 : GsEnv, generateSummary env2 s db episodeId newDocId now defaultPrompt =
      ⟨(generateSummaryBody env2 db episodeId newDocId now defaultPrompt).result,
        (runFinally env2 ⟨true, some episodeId⟩
          (generateSummaryBody env2 db episodeId newDocId now defaultPrompt)).1,
        (generateSummaryBody env2 db episodeId newDocId now defaultPrompt).db,
        (generateSummaryBody env2 db episodeId newDocId now defaultPrompt).effects ++
          (runFinally env2 ⟨true, some episodeId⟩
            (generateSummaryBody env2 db episodeId newDocId now defaultPrompt)).2⟩ := by
    intro env2
    simp [generateSummary, startGeneration, h]
  have hbody : ∀ r l, generateSummaryBody { env with deleteRemoteOk := r, deleteLocalOk := l }
      db episodeId newDocId now defaultPrompt =
      generateSummaryBody env db episodeId newDocId now defaultPrompt := fun r l => rfl
  refine ⟨?_, ?_, ?_⟩
  · intro n hn hne
    rw [hred env]
    simp only [List.mem_append]
    right
    simp only [runFinally, hn]
    rw [if_neg hne]
    cases env.deleteRemoteOk <;> simp
  · intro la hla heph hex
    rw [hred env]
    simp only [List.mem_append]
    right
    simp only [runFinally, hla, heph, hex]
    cases hfn : (generateSummaryBody env db episodeId newDocId now defaultPrompt).geminiFileName with
    | none =>
      simp only [Bool.and_self]
      cases env.deleteLocalOk <;> simp
    | some n =>
      cases env.deleteLocalOk <;> cases env.deleteRemoteOk <;>
        by_cases hne : n = "" <;> simp [hne]
  · intro r l
    rw [hred env, hred { env with deleteRemoteOk := r, deleteLocalOk := l }, hbody r l]
    refine ⟨rfl, ?_, rfl⟩
    simp [runFinally, completeGeneration]


/-- C3, witness: a run whose upload succeeded attempts the remote
deletion even though a later step failed. -/
theorem generateSummary_cleanup_witness :
    Effect.deleteRemote "files/abc" ∈
      (generateSummary sampleEnvOk initialGenState emptyDb "e1" "d1" "t" "DP").effects :=
  (generateSummary_cleanup sampleEnvOk initialGenState emptyDb "e1" "d1" "t" "DP" rfl).1
    "files/abc" (by decide) (by decide)

theorem applyGenOp_consistent (s : GenState) (op : GenOp)
    (h : s.isGenerating = false → s.generatingEpisodeId = none) :
    (applyGenOp s op).isGenerating = false →
      (applyGenOp s op).generatingEpisodeId = none := by
  cases op with
  | start eid =>
    cases hs : s.isGenerating with
    | true =>
      have hred : applyGenOp s (GenOp.start eid) = s := by
        simp [applyGenOp, startGeneration, hs]
      rw [hred]
      exact h
    | false => simp [applyGenOp, startGeneration, hs]
  | complete => simp [applyGenOp, completeGeneration]

theorem applyGenOps_consistent (ops : List GenOp) :
    ∀ s : GenState, (s.isGenerating = false → s.generatingEpisodeId = none) →
      ((applyGenOps s ops).isGenerating = false →
        (applyGenOps s ops).generatingEpisodeId = none) := by
  induction ops with
  | nil => intro s h; exact h
  | cons op rest ih =>
    intro s h
    exact ih (applyGenOp s op) (applyGenOp_consistent s op h)

/-- C10: the generation status is internally consistent — after any
sequence of startGeneration/completeGeneration calls from the initial
state, isGenerating=false implies generatingEpisodeId=null, and a
successful startGeneration(episodeId) leaves isGenerating=true with
generatingEpisodeId equal to exactly that episode id. -/
theorem genStatus_consistent (ops : List GenOp) (s s2 : GenState) (episodeId : String) :
    ((applyGenOps initialGenState ops).isGenerating = false →
      (applyGenOps initialGenState ops).generatingEpisodeId = none) ∧
    (startGeneration s episodeId = (true, s2) →
      s2.isGenerating = true ∧ s2.generatingEpisodeId = some episodeId) := by
  constructor
  · exact applyGenOps_consistent ops initialGenState (fun _ => rfl)
  · intro hstart
    cases hs : s.isGenerating with
    | true =>
      rw [startGeneration, if_pos hs] at hstart
      injection hstart with h1 h2
      exact absurd h1 (by decide)
    | false =>
      rw [startGeneration, if_neg (by simp [hs])] at hstart
      injection hstart with h1 h2
      rw [← h2]
      exact ⟨rfl, rfl⟩

/-- C10, witness: after a start followed by a complete, no episode id
lingers. -/
theorem genStatus_consistent_witness :
    (applyGenOps initialGenState [GenOp.start "a", GenOp.complete]).generatingEpisodeId =
      none :=
  (genStatus_consistent [GenOp.start "a", GenOp.complete] initialGenState
    initialGenState "a").1 (by decide)

theorem jsOrD_falsy (a : Option String) (d : String) (h : jsTruthyS a = false) :
    jsOrD a d = d := by
  cases a with
  | none => rfl
  | some s =>
    by_cases hs : s = ""
    · simp [jsOrD, hs]
    · simp [jsTruthyS, hs] at h

theorem jsOrD_truthy (s : String) (d : String) (h : s ≠ "") : jsOrD (some s) d = s := by
  simp [jsOrD, h]

theorem jsOrD_ne_empty (a : Option String) (d : String) (hd : d ≠ "") : jsOrD a d ≠ "" := by
  cases a with
  | none => exact hd
  | some s =>
    by_cases h : s = ""
    · simpa [jsOrD, h] using hd
    · simp only [jsOrD, if_neg h]
      exact h

theorem itemAudioUrl_ne_empty (it : FeedItem)
    (h : (jsTruthyS it.enclosureUrl || jsTruthyS it.mediaContentUrl
      || jsTruthyS it.link) = true) :
    itemAudioUrl it ≠ "" := by
  simp only [Bool.or_eq_true] at h
  rcases h with (he | hm) | hl
  · rcases henc : it.enclosureUrl with _ | se
    · rw [henc] at he; exact absurd he (by decide)
    · rw [henc] at he
      have hse : se ≠ "" := by
        by_contra hc
        rw [hc] at he
        exact absurd he (by decide)
      simp only [itemAudioUrl, henc]
      rw [jsOrD_truthy _ _ hse]
      exact hse
  · rcases hmed : it.mediaContentUrl with _ | sm
    · rw [hmed] at hm; exact absurd hm (by decide)
    · rw [hmed] at hm
      have hsm : sm ≠ "" := by
        by_contra hc
        rw [hc] at hm
        exact absurd hm (by decide)
      simp only [itemAudioUrl, hmed]
      exact jsOrD_ne_empty _ _ (by rw [jsOrD_truthy _ _ hsm]; exact hsm)
  · rcases hlnk : it.link with _ | sl
    · rw [hlnk] at hl; exact absurd hl (by decide)
    · rw [hlnk] at hl
      have hsl : sl ≠ "" := by
        by_contra hc
        rw [hc] at hl
        exact absurd hl (by decide)
      simp only [itemAudioUrl, hlnk]
      exact jsOrD_ne_empty _ _ (jsOrD_ne_empty _ _ (by rw [jsOrD_truthy _ _ hsl]; exact hsl))

/-- C8: the episode identifier falls back through the chain
[guid object text > guid string > audio URL > link > synthesized
podcastTitle-title composite], and every kept item (one with a title
and an audio reference) receives a non-empty identity. -/
theorem itemGuid_fallback (it : FeedItem) (podcastTitle : String) :
    (keepItem it = true → itemGuid it podcastTitle ≠ "") ∧
    (∀ g, it.guidText = some g → g ≠ "" → itemGuid it podcastTitle = g) ∧
    (∀ g, jsTruthyS it.guidText = false → it.guidStr = some g → g ≠ "" →
      itemGuid it podcastTitle = g) ∧
    (jsTruthyS it.guidText = false → jsTruthyS it.guidStr = false →
      itemAudioUrl it ≠ "" → itemGuid it podcastTitle = itemAudioUrl it) ∧
    (∀ l, jsTruthyS it.guidText = false → jsTruthyS it.guidStr = false →
      itemAudioUrl it = "" → it.link = some l → l ≠ "" →
      itemGuid it podcastTitle = l) ∧
    (jsTruthyS it.guidText = false → jsTruthyS it.guidStr = false →
      itemAudioUrl it = "" → jsTruthyS it.link = false →
      itemGuid it podcastTitle = podcastTitle ++ "-" ++ itemTitleText it) := by
  refine ⟨?_, ?_, ?_, ?_, ?_, ?_⟩
  · intro hk
    rw [keepItem, Bool.and_eq_true] at hk
    have haud := itemAudioUrl_ne_empty it hk.1
    simp only [itemGuid]
    rw [if_neg haud]
    exact jsOrD_ne_empty _ _ (jsOrD_ne_empty _ _ haud)
  · intro g hg hgne
    simp only [itemGuid, hg]
    rw [jsOrD_truthy _ _ hgne]
  · intro g hgt hg hgne
    simp only [itemGuid, hg]
    rw [jsOrD_falsy _ _ hgt, jsOrD_truthy _ _ hgne]
  · intro hgt hgs haud
    simp only [itemGuid]
    rw [if_neg haud, jsOrD_falsy _ _ hgt, jsOrD_falsy _ _ hgs]
  · intro l hgt hgs haud hl hlne
    simp only [itemGuid, hl]
    rw [if_pos haud, jsOrD_falsy _ _ hgt, jsOrD_falsy _ _ hgs, jsOrD_truthy _ _ hlne]
  · intro hgt hgs haud hlnk
    simp only [itemGuid]
    rw [if_pos haud, jsOrD_falsy _ _ hgt, jsOrD_falsy _ _ hgs, jsOrD_falsy _ _ hlnk]

/-- C8, witness: a feed-provided guid wins the chain. -/
theorem itemGuid_fallback_witness : itemGuid sampleItem "Pod" = "GUID-1" :=
  (itemGuid_fallback sampleItem "Pod").2.1 "GUID-1" rfl (by decide)

end PodSum
